import Mathlib

/-!
Shallow embedding of `src/server/main.py`, a minimal FastAPI token relay
with two routes: `GET /` (liveness) and `GET /token` (forwards a
token-issuance call to the upstream provider with a fixed classifier).
-/

namespace TokenRelay

/-- JSON values, as the HTTP framework serializes handler return values.
An object is encoded as its own cons-list of key/value pairs
(`objNil` / `objCons`), which keeps the type plainly recursive. -/
inductive Json where
  | str (s : String)
  | num (n : Int)
  | boolean (b : Bool)
  | null
  | objNil
  | objCons (key : String) (value : Json) (rest : Json)
  deriving DecidableEq, Repr

/-- Convenience constructor: a JSON object from a list of fields. -/
def Json.obj : List (String × Json) → Json
  | [] => .objNil
  | (k, v) :: rest => .objCons k v (Json.obj rest)

/-- A process environment, with `os.getenv` semantics: a variable that is
absent reads as `none`. -/
def Env : Type := String → Option String

/-- `os.getenv(name)`. -/
def getenv (env : Env) (name : String) : Option String := env name

/-- The upstream SDK client value constructed at module import.  The
constructor only stores the base URL and the credential; it performs no
credential validation (the spec treats the SDK as an external collaborator
whose only relevant capability is token issuance). -/
structure ElevenLabs where
  base_url : String
  api_key : Option String
  deriving DecidableEq, Repr

/-- `client = ElevenLabs(base_url="https://api.elevenlabs.io",
api_key=os.getenv("ELEVEN"))` — the single module-level value. -/
def client (env : Env) : ElevenLabs :=
  { base_url := "https://api.elevenlabs.io"
    api_key := getenv env "ELEVEN" }

/-- Behaviour of the upstream capability `client.tokens.single_use.create`:
a function of the client (which carries the credential) and the token-type
classifier, returning either a payload or a raised error.  The provider is
an external service boundary, so it is a parameter of the model. -/
def Upstream (ε : Type) : Type := ElevenLabs → String → Except ε Json

/-- A handler body: straight-line code that may invoke the upstream
token-issuance capability and finally returns a value, or lets an upstream
exception propagate (an `Except.error` reaching `ret` is the unhandled
exception leaving the handler). -/
inductive Handler (ε : Type) where
  | ret (r : Except ε Json)
  | callCreate (token_type : String) (k : Except ε Json → Handler ε)

/-- One recorded outbound invocation of the upstream capability: which
client object (hence which credential) made the call and which token-type
classifier it passed. -/
structure UpstreamCall where
  caller : ElevenLabs
  token_type : String
  deriving DecidableEq, Repr

/-- Run a handler body against a concrete upstream behaviour, recording
every outbound invocation in order. -/
def runHandler {ε : Type} (u : Upstream ε) (c : ElevenLabs) :
    Handler ε → Except ε Json × List UpstreamCall
  | .ret r => (r, [])
  | .callCreate t k =>
      let r := u c t
      let (v, calls) := runHandler u c (k r)
      (v, ⟨c, t⟩ :: calls)

/-- The fixed payload of the root route. -/
def helloWorld : Json := Json.obj [("message", Json.str "Hello World")]

/-- `async def root(): return {"message": "Hello World"}` -/
def root {ε : Type} : Handler ε := .ret (.ok helloWorld)

/-- `async def getToken(): return client.tokens.single_use.create(
token_type="realtime_scribe")` — one upstream call with a hardcoded
classifier; its result (value or exception) is returned as is. -/
def getToken {ε : Type} : Handler ε :=
  .callCreate "realtime_scribe" (fun r => .ret r)

/-- An inbound HTTP request.  Both handlers declare no parameters, so the
query, headers and body fields carry arbitrary caller data that the routes
never read. -/
structure Request where
  method : String
  path : String
  query : List (String × String)
  headers : List (String × String)
  reqBody : Option String
  deriving DecidableEq, Repr

/-- Outcome of one request at the HTTP layer: a JSON response with a
status code, the framework's default unhandled-exception outcome
(status 500), or 404 for an unknown route. -/
inductive HttpResult (ε : Type) where
  | response (status : Nat) (payload : Json)
  | unhandledError (e : ε)
  | notFound
  deriving DecidableEq, Repr

/-- The status code of an HTTP outcome. -/
def HttpResult.status {ε : Type} : HttpResult ε → Nat
  | .response s _ => s
  | .unhandledError _ => 500
  | .notFound => 404

/-- Module-level state: the single process-wide value, the SDK client. -/
structure ModuleState where
  sdkClient : ElevenLabs
  deriving DecidableEq, Repr

/-- Module import: read the environment once and construct the client. -/
def startup (env : Env) : ModuleState := ⟨client env⟩

/-- FastAPI route dispatch: select the handler by method and path, run it,
turn a normal return into a 200 JSON response and a propagated exception
into the framework's unhandled-error outcome.  The module state is
threaded through and returned: neither handler body assigns to any
module-level name. -/
def handleRequest {ε : Type} (u : Upstream ε) (s : ModuleState) (req : Request) :
    (HttpResult ε × List UpstreamCall) × ModuleState :=
  if req.method = "GET" ∧ req.path = "/" then
    match runHandler u s.sdkClient root with
    | (.ok v, calls) => ((.response 200 v, calls), s)
    | (.error e, calls) => ((.unhandledError e, calls), s)
  else if req.method = "GET" ∧ req.path = "/token" then
    match runHandler u s.sdkClient getToken with
    | (.ok v, calls) => ((.response 200 v, calls), s)
    | (.error e, calls) => ((.unhandledError e, calls), s)
  else ((.notFound, []), s)

/-- Serve a sequence of requests, threading the module state through. -/
def serve {ε : Type} (u : Upstream ε) (s : ModuleState) :
    List Request → List (HttpResult ε) × ModuleState
  | [] => ([], s)
  | r :: rs =>
      let out := handleRequest u s r
      let rest := serve u out.2 rs
      (out.1.1 :: rest.1, rest.2)

/-- A route definition as written in the source: HTTP method, path, and,
when the body forwards to the upstream token-issuance capability, the
token-type classifier it passes. -/
structure RouteDef where
  method : String
  path : String
  classifier : Option String
  deriving DecidableEq, Repr

/-- The route definitions present in `src/server/main.py`, in source
order: `@app.get("/")` over `root`, and `@app.get("/token")` over
`getToken`, whose body passes `token_type="realtime_scribe"`. -/
def sourceRoutes : List RouteDef :=
  [ ⟨"GET", "/", none⟩,
    ⟨"GET", "/token", some "realtime_scribe"⟩ ]

/-- Modelled from the spec: the upstream provider (not part of src/)
rejects a token-issuance call made without a credential — the
"invalid credential" failure class of the error taxonomy — and otherwise
issues a token payload. -/
def specUpstream : Upstream String :=
  fun c _ =>
    match c.api_key with
    | none => .error "invalid credential"
    | some _ => .ok (Json.obj [("token", Json.str "tok"), ("expires_in", Json.num 60)])

/-! ## Helper lemmas -/

/-- Running the token handler makes the single recorded call with the
constant classifier and returns the upstream's reply as is. -/
theorem runHandler_getToken {ε : Type} (u : Upstream ε) (c : ElevenLabs) :
    runHandler u c getToken = (u c "realtime_scribe", [⟨c, "realtime_scribe"⟩]) := rfl

/-- Dispatch of a GET /token request, in closed form. -/
theorem handleRequest_token {ε : Type} (u : Upstream ε) (s : ModuleState)
    (req : Request) (hm : req.method = "GET") (hp : req.path = "/token") :
    handleRequest u s req =
      ((match u s.sdkClient "realtime_scribe" with
        | .ok v => HttpResult.response 200 v
        | .error e => HttpResult.unhandledError e,
        [⟨s.sdkClient, "realtime_scribe"⟩]), s) := by
  have hne : ¬ (req.method = "GET" ∧ req.path = "/") := by
    rintro ⟨-, h⟩
    rw [hp] at h
    exact absurd h (by decide)
  unfold handleRequest
  rw [if_neg hne, if_pos ⟨hm, hp⟩, runHandler_getToken]
  cases u s.sdkClient "realtime_scribe" <;> rfl

/-- Dispatch of a GET / request, in closed form. -/
theorem handleRequest_root {ε : Type} (u : Upstream ε) (s : ModuleState)
    (req : Request) (hm : req.method = "GET") (hp : req.path = "/") :
    handleRequest u s req = ((.response 200 helloWorld, []), s) := by
  unfold handleRequest
  rw [if_pos ⟨hm, hp⟩]
  rfl

/-- No dispatch branch assigns to the module state. -/
theorem handleRequest_state {ε : Type} (u : Upstream ε) (s : ModuleState)
    (req : Request) : (handleRequest u s req).2 = s := by
  unfold handleRequest
  split
  · rfl
  · split
    · rw [runHandler_getToken]
      cases u s.sdkClient "realtime_scribe" <;> rfl
    · rfl

/-! ## Concrete fixtures for witnesses -/

/-- An environment holding a credential. -/
def envDemo : Env := fun n => if n = "ELEVEN" then some "k-abc" else none

/-- An environment with the credential absent. -/
def envEmpty : Env := fun _ => none

/-- A plain GET /token request. -/
def reqTokenDemo : Request := ⟨"GET", "/token", [], [], none⟩

/-- A GET /token request carrying caller data the handler never reads. -/
def reqTokenNoisy : Request :=
  ⟨"GET", "/token", [("token_type", "tts_websocket")], [("x-extra", "1")], some "ignored"⟩

/-- A plain GET / request. -/
def reqRootDemo : Request := ⟨"GET", "/", [], [], none⟩

/-- The upstream payload of scenario P5. -/
def payloadAbc : Json :=
  Json.obj [("token", Json.str "abc123"), ("expires_in", Json.num 60)]

/-- An upstream that answers every call with the P5 payload. -/
def upstreamAbc : Upstream String := fun _ _ => .ok payloadAbc

/-- An upstream that fails every call. -/
def upstreamDown : Upstream String := fun _ _ => .error "network unreachable"

/-! ## Claims -/

/-- C1: for every upstream response value, the GET /token handler returns
exactly the value produced by the upstream token-issuance call: the HTTP
outcome is a 200 response whose payload is the upstream payload, with no
field parsed, added, removed, or transformed. -/
theorem C1_token_passthrough {ε : Type} (u : Upstream ε) (s : ModuleState)
    (req : Request) (v : Json)
    (hm : req.method = "GET") (hp : req.path = "/token")
    (hu : u s.sdkClient "realtime_scribe" = .ok v) :
    ((handleRequest u s req).1).1 = .response 200 v := by
  rw [handleRequest_token u s req hm hp, hu]

/-- C1 witness: with the upstream replying {"token": "abc123",
"expires_in": 60}, GET /token returns exactly that object. -/
theorem C1_token_passthrough_witness :
    ((handleRequest upstreamAbc (startup envDemo) reqTokenDemo).1).1 =
      .response 200 payloadAbc :=
  C1_token_passthrough upstreamAbc (startup envDemo) reqTokenDemo payloadAbc rfl rfl rfl

/-- C2: across any two inbound GET /token requests, whatever (ignored)
caller data they carry, the token-type classifier passed to the upstream
call is the single fixed constant "realtime_scribe", never derived from
caller input. -/
theorem C2_fixed_classifier {ε : Type} (u : Upstream ε) (s : ModuleState)
    (r1 r2 : Request)
    (h1m : r1.method = "GET") (h1p : r1.path = "/token")
    (h2m : r2.method = "GET") (h2p : r2.path = "/token") :
    (((handleRequest u s r1).1).2).map UpstreamCall.token_type = ["realtime_scribe"] ∧
    (((handleRequest u s r1).1).2).map UpstreamCall.token_type =
      (((handleRequest u s r2).1).2).map UpstreamCall.token_type := by
  rw [handleRequest_token u s r1 h1m h1p, handleRequest_token u s r2 h2m h2p]
  exact ⟨rfl, rfl⟩

/-- C2 witness: a bare request and one whose query even names another
classifier still both pass "realtime_scribe" upstream. -/
theorem C2_fixed_classifier_witness :
    (((handleRequest upstreamAbc (startup envDemo) reqTokenDemo).1).2).map
        UpstreamCall.token_type = ["realtime_scribe"] ∧
    (((handleRequest upstreamAbc (startup envDemo) reqTokenDemo).1).2).map
        UpstreamCall.token_type =
      (((handleRequest upstreamAbc (startup envDemo) reqTokenNoisy).1).2).map
        UpstreamCall.token_type :=
  C2_fixed_classifier upstreamAbc (startup envDemo) reqTokenDemo reqTokenNoisy
    rfl rfl rfl rfl

/-- C3: if the upstream call fails, GET /token propagates that failure
unhandled: the outcome carries the very upstream error, its status is 500
(non-2xx), no success response is fabricated, and the one failed call was
not retried. -/
theorem C3_error_propagation {ε : Type} (u : Upstream ε) (s : ModuleState)
    (req : Request) (e : ε)
    (hm : req.method = "GET") (hp : req.path = "/token")
    (hu : u s.sdkClient "realtime_scribe" = .error e) :
    ((handleRequest u s req).1).1 = .unhandledError e ∧
    (((handleRequest u s req).1).1).status = 500 ∧
    ¬ (200 ≤ (((handleRequest u s req).1).1).status ∧
        (((handleRequest u s req).1).1).status < 300) ∧
    (∀ (st : Nat) (v : Json), ((handleRequest u s req).1).1 ≠ .response st v) ∧
    ((handleRequest u s req).1).2 = [⟨s.sdkClient, "realtime_scribe"⟩] := by
  rw [handleRequest_token u s req hm hp, hu]
  refine ⟨rfl, rfl, ?_, ?_, rfl⟩
  · show ¬ (200 ≤ (500 : Nat) ∧ (500 : Nat) < 300)
    decide
  · intro st v hcon
    exact HttpResult.noConfusion hcon

/-- C3 witness: an upstream network failure surfaces as the unhandled
error with status 500 and no fabricated success. -/
theorem C3_error_propagation_witness :
    ((handleRequest upstreamDown (startup envDemo) reqTokenDemo).1).1 =
      .unhandledError "network unreachable" ∧
    (((handleRequest upstreamDown (startup envDemo) reqTokenDemo).1).1).status = 500 ∧
    ¬ (200 ≤ (((handleRequest upstreamDown (startup envDemo) reqTokenDemo).1).1).status ∧
        (((handleRequest upstreamDown (startup envDemo) reqTokenDemo).1).1).status < 300) ∧
    (∀ (st : Nat) (v : Json),
      ((handleRequest upstreamDown (startup envDemo) reqTokenDemo).1).1 ≠
        .response st v) ∧
    ((handleRequest upstreamDown (startup envDemo) reqTokenDemo).1).2 =
      [⟨(startup envDemo).sdkClient, "realtime_scribe"⟩] :=
  C3_error_propagation upstreamDown (startup envDemo) reqTokenDemo
    "network unreachable" rfl rfl rfl

/-- C4: every inbound GET /token request issues exactly one upstream
token-issuance call — never zero (no caching of tokens across requests)
and never more than one (no batching, no retry) — whatever the upstream
replies. -/
theorem C4_exactly_one_call {ε : Type} (u : Upstream ε) (s : ModuleState)
    (req : Request)
    (hm : req.method = "GET") (hp : req.path = "/token") :
    (((handleRequest u s req).1).2).length = 1 := by
  rw [handleRequest_token u s req hm hp]
  rfl

/-- C4 witness: one concrete GET /token request makes exactly one call. -/
theorem C4_exactly_one_call_witness :
    (((handleRequest upstreamAbc (startup envDemo) reqTokenDemo).1).2).length = 1 :=
  C4_exactly_one_call upstreamAbc (startup envDemo) reqTokenDemo rfl rfl

/-- C5: every request addressed to GET /, under every module state and
upstream behaviour, yields status 200 with exactly the payload
{"message": "Hello World"}, makes no upstream call, and leaves the module
state unchanged — no input varies the route and it has no failure mode of
its own. -/
theorem C5_root_constant {ε : Type} (u : Upstream ε) (s : ModuleState)
    (req : Request)
    (hm : req.method = "GET") (hp : req.path = "/") :
    handleRequest u s req =
      ((.response 200 (Json.obj [("message", Json.str "Hello World")]), []), s) :=
  handleRequest_root u s req hm hp

/-- C5 witness: the concrete GET / request gets the fixed payload. -/
theorem C5_root_constant_witness :
    handleRequest upstreamAbc (startup envDemo) reqRootDemo =
      ((.response 200 (Json.obj [("message", Json.str "Hello World")]), []),
        startup envDemo) :=
  C5_root_constant upstreamAbc (startup envDemo) reqRootDemo rfl rfl

/-- C6 counterexample: the source does not contain two token-issuance
route definitions whose classifiers are "realtime_scribe" and
"tts_websocket" — no route definition in `src/server/main.py` passes
"tts_websocket" at all. -/
theorem C6_counterexample :
    ¬ ∃ r1 ∈ sourceRoutes, ∃ r2 ∈ sourceRoutes,
        r1.classifier = some "realtime_scribe" ∧
        r2.classifier = some "tts_websocket" := by
  decide

/-- C6 (amended): the source contains exactly one token-issuance route
definition, GET /token passing the classifier "realtime_scribe"; no route
definition passes "tts_websocket". -/
theorem C6_single_token_route :
    sourceRoutes.filter (fun r => r.classifier.isSome) =
      [⟨"GET", "/token", some "realtime_scribe"⟩] ∧
    ∀ r ∈ sourceRoutes, r.classifier ≠ some "tts_websocket" := by
  decide

/-- C7: with the upstream credential missing from the environment at
startup, the service still constructs its module state, and — assuming
the upstream provider rejects calls made without a credential — every
GET /token request deterministically fails: the outcome is an unhandled
error with status 500, never a success in the 2xx range, and it is the
same on every request. -/
theorem C7_missing_credential {ε : Type} (env : Env) (u : Upstream ε)
    (henv : env "ELEVEN" = none)
    (hrej : ∀ (c : ElevenLabs) (t : String), c.api_key = none →
      ∃ e, u c t = .error e)
    (req : Request)
    (hm : req.method = "GET") (hp : req.path = "/token") :
    (∃ e, ((handleRequest u (startup env) req).1).1 = .unhandledError e) ∧
    (((handleRequest u (startup env) req).1).1).status = 500 ∧
    (∀ (st : Nat) (v : Json), 200 ≤ st → st < 300 →
      ((handleRequest u (startup env) req).1).1 ≠ .response st v) ∧
    (∀ r2 : Request, r2.method = "GET" → r2.path = "/token" →
      ((handleRequest u (startup env) req).1).1 =
        ((handleRequest u (startup env) r2).1).1) := by
  have hkey : (startup env).sdkClient.api_key = none := by
    simp [startup, client, getenv, henv]
  obtain ⟨e, he⟩ := hrej (startup env).sdkClient "realtime_scribe" hkey
  have hres : ∀ r : Request, r.method = "GET" → r.path = "/token" →
      ((handleRequest u (startup env) r).1).1 = .unhandledError e := by
    intro r hrm hrp
    rw [handleRequest_token u (startup env) r hrm hrp, he]
  refine ⟨⟨e, hres req hm hp⟩, ?_, ?_, ?_⟩
  · rw [hres req hm hp]
    rfl
  · intro st v h2 h3 hcon
    rw [hres req hm hp] at hcon
    exact HttpResult.noConfusion hcon
  · intro r2 h2m h2p
    rw [hres req hm hp, hres r2 h2m h2p]

/-- C7 witness: the empty environment together with the spec-modelled
upstream makes the concrete GET /token request fail deterministically. -/
theorem C7_missing_credential_witness :
    (∃ e, ((handleRequest specUpstream (startup envEmpty) reqTokenDemo).1).1 =
      .unhandledError e) ∧
    (((handleRequest specUpstream (startup envEmpty) reqTokenDemo).1).1).status = 500 ∧
    (∀ (st : Nat) (v : Json), 200 ≤ st → st < 300 →
      ((handleRequest specUpstream (startup envEmpty) reqTokenDemo).1).1 ≠
        .response st v) ∧
    (∀ r2 : Request, r2.method = "GET" → r2.path = "/token" →
      ((handleRequest specUpstream (startup envEmpty) reqTokenDemo).1).1 =
        ((handleRequest specUpstream (startup envEmpty) r2).1).1) :=
  C7_missing_credential envEmpty specUpstream rfl
    (fun c t h => ⟨"invalid credential", by simp [specUpstream, h]⟩)
    reqTokenDemo rfl rfl

/-- C8: the credential is read from the environment exactly once, at
startup; neither handler mutates any module-level value, so after each
single request and after any sequence of requests the module state equals
its startup value. -/
theorem C8_state_immutable {ε : Type} (env : Env) (u : Upstream ε)
    (reqs : List Request) :
    (∀ (s : ModuleState) (r : Request), (handleRequest u s r).2 = s) ∧
    (serve u (startup env) reqs).2 = startup env := by
  refine ⟨fun s r => handleRequest_state u s r, ?_⟩
  have hgen : ∀ s : ModuleState, (serve u s reqs).2 = s := by
    intro s
    induction reqs generalizing s with
    | nil => rfl
    | cons r rs ih => simp [serve, handleRequest_state, ih]
  exact hgen (startup env)

/-- C9: with ELEVEN absent from the environment, module initialization
still succeeds — getenv yields none and the client is constructed with
api_key none — the service starts and serves GET / normally, and the
missing credential surfaces only when a GET /token request triggers the
upstream call, which then fails. -/
theorem C9_startup_without_credential {ε : Type} (env : Env) (u : Upstream ε)
    (henv : env "ELEVEN" = none)
    (hrej : ∀ (c : ElevenLabs) (t : String), c.api_key = none →
      ∃ e, u c t = .error e) :
    (startup env).sdkClient = ⟨"https://api.elevenlabs.io", none⟩ ∧
    (∀ r : Request, r.method = "GET" → r.path = "/" →
      ((handleRequest u (startup env) r).1).1 = .response 200 helloWorld) ∧
    (∀ r : Request, r.method = "GET" → r.path = "/token" →
      ∃ e, ((handleRequest u (startup env) r).1).1 = .unhandledError e) := by
  have hkey : (startup env).sdkClient = ⟨"https://api.elevenlabs.io", none⟩ := by
    simp [startup, client, getenv, henv]
  refine ⟨hkey, ?_, ?_⟩
  · intro r hm hp
    rw [handleRequest_root u (startup env) r hm hp]
  · intro r hm hp
    obtain ⟨e, he⟩ := hrej (startup env).sdkClient "realtime_scribe" (by rw [hkey])
    exact ⟨e, by rw [handleRequest_token u (startup env) r hm hp, he]⟩

/-- C9 witness: concrete empty environment and spec-modelled upstream. -/
theorem C9_startup_without_credential_witness :
    (startup envEmpty).sdkClient = ⟨"https://api.elevenlabs.io", none⟩ ∧
    (∀ r : Request, r.method = "GET" → r.path = "/" →
      ((handleRequest specUpstream (startup envEmpty) r).1).1 =
        .response 200 helloWorld) ∧
    (∀ r : Request, r.method = "GET" → r.path = "/token" →
      ∃ e, ((handleRequest specUpstream (startup envEmpty) r).1).1 =
        .unhandledError e) :=
  C9_startup_without_credential envEmpty specUpstream rfl
    (fun c t h => ⟨"invalid credential", by simp [specUpstream, h]⟩)

/-- C10: the GET /token handler reads no request data, so any two inbound
token requests make outbound upstream invocations identical in every
respect — same operation, same token_type argument, same client and hence
same credential — and the HTTP outcome is a function of the upstream
reply alone: runs whose upstreams reply equally at that invocation
produce equal outcomes. -/
theorem C10_invocation_identical {ε : Type} (u1 u2 : Upstream ε)
    (s : ModuleState) (r1 r2 : Request)
    (h1m : r1.method = "GET") (h1p : r1.path = "/token")
    (h2m : r2.method = "GET") (h2p : r2.path = "/token") :
    ((handleRequest u1 s r1).1).2 = [⟨s.sdkClient, "realtime_scribe"⟩] ∧
    ((handleRequest u1 s r1).1).2 = ((handleRequest u1 s r2).1).2 ∧
    (u1 s.sdkClient "realtime_scribe" = u2 s.sdkClient "realtime_scribe" →
      ((handleRequest u1 s r1).1).1 = ((handleRequest u2 s r2).1).1) := by
  rw [handleRequest_token u1 s r1 h1m h1p, handleRequest_token u1 s r2 h2m h2p,
    handleRequest_token u2 s r2 h2m h2p]
  exact ⟨rfl, rfl, fun h => by rw [h]⟩

/-- C10 witness: a bare and a noisy token request under the same upstream
make the identical invocation and get the identical outcome. -/
theorem C10_invocation_identical_witness :
    ((handleRequest upstreamAbc (startup envDemo) reqTokenDemo).1).2 =
      [⟨(startup envDemo).sdkClient, "realtime_scribe"⟩] ∧
    ((handleRequest upstreamAbc (startup envDemo) reqTokenDemo).1).2 =
      ((handleRequest upstreamAbc (startup envDemo) reqTokenNoisy).1).2 ∧
    (upstreamAbc (startup envDemo).sdkClient "realtime_scribe" =
        upstreamAbc (startup envDemo).sdkClient "realtime_scribe" →
      ((handleRequest upstreamAbc (startup envDemo) reqTokenDemo).1).1 =
        ((handleRequest upstreamAbc (startup envDemo) reqTokenNoisy).1).1) :=
  C10_invocation_identical upstreamAbc upstreamAbc (startup envDemo)
    reqTokenDemo reqTokenNoisy rfl rfl rfl rfl

end TokenRelay
